import Mathlib

/-!
Verification of the Place Discovery & Scoring Engine (snappoint-api).

Shallow embedding of `types/points_config.go` and
`controllers/place_controller.go`. Go `float64` values are modelled as
exact rationals (`ℚ`) where only decimal constants and comparisons are
involved, and as reals (`ℝ`) where trigonometry (the Haversine distance)
is involved. Go `int` is modelled as `Int`; pointers (`*float64`,
`*int`) as `Option`.
-/

namespace SnapPoint

/-- The `CategoryRadius` table of `GetPlaceRadius` (points_config.go),
category → post radius in meters. -/
def CategoryRadius : List (String × Int) := [
  ("national_park", 1000), ("state_park", 800), ("regional_park", 500),
  ("country_park", 400), ("forest", 600), ("natural_feature", 300),
  ("mountain", 800), ("lake", 400), ("beach", 300), ("island", 500),
  ("valley", 400), ("desert", 600),
  ("university", 400), ("hospital", 200), ("airport", 800),
  ("train_station", 150), ("stadium", 200), ("convention_center", 200),
  ("exhibition_center", 200), ("fairground", 300), ("race_track", 400),
  ("castle", 300), ("palace", 250), ("historical_site", 200),
  ("archaeological_site", 250), ("ruins", 150), ("monument", 50),
  ("memorial", 30),
  ("park", 200), ("botanical_garden", 250), ("zoo", 300),
  ("safari_park", 500), ("theme_park", 400), ("amusement_park", 300),
  ("water_park", 200),
  ("shopping_mall", 150), ("shopping_center", 100), ("market", 80),
  ("bazaar", 100),
  ("mosque", 100), ("church", 80), ("cathedral", 150), ("temple", 100),
  ("synagogue", 60), ("shrine", 50),
  ("museum", 120), ("art_gallery", 80), ("science_museum", 150),
  ("history_museum", 120), ("aquarium", 150), ("planetarium", 80),
  ("movie_theater", 50), ("theater", 60), ("concert_hall", 80),
  ("opera_house", 100), ("night_club", 40), ("bar", 30), ("pub", 40),
  ("casino", 100),
  ("gym", 50), ("sports_complex", 200), ("swimming_pool", 80),
  ("golf_course", 300), ("tennis_court", 30), ("basketball_court", 25),
  ("football_field", 100), ("baseball_field", 80),
  ("hotel", 80), ("resort", 200), ("hostel", 40), ("motel", 50),
  ("bed_and_breakfast", 30), ("campground", 150),
  ("restaurant", 25), ("cafe", 20), ("fast_food", 15), ("bakery", 15),
  ("food_court", 50), ("brewery", 40), ("winery", 100),
  ("store", 20), ("clothing_store", 15), ("book_store", 20),
  ("jewelry_store", 10), ("electronics_store", 25),
  ("furniture_store", 30), ("hardware_store", 25), ("pharmacy", 15),
  ("supermarket", 40),
  ("bank", 20), ("post_office", 25), ("library", 60), ("school", 150),
  ("kindergarten", 50),
  ("bus_station", 80), ("subway_station", 40), ("taxi_stand", 10),
  ("parking", 30), ("gas_station", 30),
  ("tourist_attraction", 100), ("point_of_interest", 50),
  ("establishment", 30)]

/-- `DefaultRadius` of `GetPlaceRadius` (points_config.go): 25 meters. -/
def DefaultRadius : Int := 25

/-- The `CategoryPoints` table of `GetPlaceScoring` (points_config.go),
category → base gamification weight. -/
def CategoryPoints : List (String × Int) := [
  ("castle", 60), ("palace", 60), ("historical_site", 60),
  ("museum", 55), ("ruins", 55),
  ("art_gallery", 50), ("monument", 50), ("archaeological_site", 50),
  ("tourist_attraction", 45), ("natural_feature", 45),
  ("waterfall", 45), ("island", 45),
  ("church", 40), ("mosque", 40), ("synagogue", 40),
  ("place_of_worship", 40), ("national_park", 40), ("mountain", 40),
  ("cave", 40),
  ("theater", 35), ("beach", 35), ("botanical_garden", 35),
  ("park", 30), ("zoo", 30), ("aquarium", 30), ("cemetery", 30),
  ("amusement_park", 30),
  ("lake", 25), ("forest", 25), ("stadium", 25), ("shopping_mall", 25),
  ("restaurant", 20), ("movie_theater", 20), ("spa", 20),
  ("cafe", 15), ("night_club", 15), ("casino", 15), ("bar", 15),
  ("hotel", 15), ("lodging", 15),
  ("gym", 10), ("bowling_alley", 10), ("bakery", 10), ("food", 10),
  ("meal_takeaway", 10), ("meal_delivery", 10),
  ("book_store", 15), ("jewelry_store", 15),
  ("store", 10), ("clothing_store", 10), ("electronics_store", 10),
  ("supermarket", 10),
  ("resort", 30), ("hostel", 15),
  ("university", 25), ("library", 20), ("school", 15),
  ("hospital", 15), ("pharmacy", 10), ("bank", 10), ("post_office", 10),
  ("train_station", 15), ("airport", 15), ("subway_station", 10),
  ("bus_station", 10),
  ("gas_station", 10), ("police", 10), ("fire_station", 10),
  ("parking", 10), ("taxi_stand", 10), ("atm", 10),
  ("establishment", 10), ("point_of_interest", 15)]

/-- Go's `strings.ToLower` as used on category names. The tables and
categories involved are ASCII, where it lower-cases character by
character (written via `String.mk` so that it reduces definitionally,
unlike `String.toLower`). -/
def asciiToLower (s : String) : String := ⟨s.data.map Char.toLower⟩

/-- The shared loop shape of `GetPlacePostRadius` and
`CalculatePlacePoints`: fold over the categories, looking each category
up in `table` case-insensitively and replacing the accumulator whenever
the looked-up value is strictly larger. -/
def maxLookupFold (table : List (String × Int)) (start : Int)
    (categories : List String) : Int :=
  categories.foldl (fun acc category =>
    match table.lookup (asciiToLower category) with
    | some v => if acc < v then v else acc
    | none => acc) start

/-- The maximum category weight of `CalculatePlacePoints`
(points_config.go lines 616-624): starts from 0, takes the largest
matching `CategoryPoints` entry. -/
def maxCategoryPoints (categories : List String) : Int :=
  maxLookupFold CategoryPoints 0 categories

/-- `basePoints` of `CalculatePlacePoints`: the maximum category weight,
or the default 15 when no category matched (maximum is 0). -/
def basePoints (categories : List String) : Int :=
  if 0 < maxCategoryPoints categories then maxCategoryPoints categories else 15

/-- `ratingBonus` of `CalculatePlacePoints` (points_config.go lines
630-645). -/
def ratingBonus (rating : Option ℚ) : Int :=
  match rating with
  | none => 0
  | some r =>
    if 9/2 ≤ r then 15
    else if 4 ≤ r then 10
    else if 7/2 ≤ r then 5
    else if 3 ≤ r then 0
    else -10

/-- `popularityBonus` of `CalculatePlacePoints` (points_config.go lines
647-664). -/
def popularityBonus (userRatingsTotal : Option Int) : Int :=
  match userRatingsTotal with
  | none => 0
  | some n =>
    if 1000 ≤ n then 20
    else if 500 ≤ n then 15
    else if 200 ≤ n then 10
    else if 50 ≤ n then 5
    else if 10 ≤ n then 0
    else -5

/-- `specialBonus` of `CalculatePlacePoints` (points_config.go lines
666-686): additive bonuses for special category combinations, tested on
the lower-cased category set. -/
def specialBonus (categories : List String) : Int :=
  let categorySet := categories.map (fun c => asciiToLower c)
  (if categorySet.contains ("historical_site") &&
      categorySet.contains ("tourist_attraction") then 15 else 0) +
  (if categorySet.contains ("natural_feature") &&
      categorySet.contains ("tourist_attraction") then 10 else 0) +
  (if categorySet.contains ("museum") &&
      categorySet.contains ("art_gallery") then 5 else 0)

/-- The clamp of `CalculatePlacePoints` (points_config.go lines
691-696): restrict `totalPoints` to the interval [10, 60]. -/
def clampPoints (totalPoints : Int) : Int :=
  if totalPoints < 10 then 10
  else if 60 < totalPoints then 60
  else totalPoints

/-- `CalculatePlacePoints` (points_config.go lines 613-702). The final
division is Go integer division; its operands are non-negative here, so
`Int` division coincides with Go's truncated division. -/
def CalculatePlacePoints (categories : List String) (rating : Option ℚ)
    (userRatingsTotal : Option Int) : Int :=
  let totalPoints := basePoints categories + ratingBonus rating +
    popularityBonus userRatingsTotal + specialBonus categories
  ((clampPoints totalPoints + 2) / 5) * 5

/-- The result record of `GetPlacePostRadius` (points_config.go lines
205-242): radius in meters, radius class key, human description,
coverage area in m². -/
structure RadiusInfo where
  radius : Int
  radiusType : String
  radiusDescription : String
  coverageArea : ℝ

/-- `GetPlacePostRadius` (points_config.go lines 205-242): the largest
matching `CategoryRadius` entry starting from the default 25 m, the
radius class banded on that radius, and the coverage area π·r². -/
noncomputable def GetPlacePostRadius (categories : List String) : RadiusInfo :=
  let maxRadius := maxLookupFold CategoryRadius DefaultRadius categories
  let rt :=
    if 500 ≤ maxRadius then ("very_large", "Çok Geniş Alan")
    else if 200 ≤ maxRadius then ("large", "Geniş Alan")
    else if 100 ≤ maxRadius then ("medium", "Orta Alan")
    else if 50 ≤ maxRadius then ("small_medium", "Küçük-Orta Alan")
    else ("small", "Küçük Alan")
  { radius := maxRadius
    radiusType := rt.1
    radiusDescription := rt.2
    coverageArea := Real.pi * (maxRadius : ℝ) * (maxRadius : ℝ) }

/-- The radii of the categories that match the `CategoryRadius` table
(spec-side helper for the amended C3: the resolver's result is the
maximum of the default and these values). -/
def matchedRadii (categories : List String) : List Int :=
  categories.filterMap (fun c => CategoryRadius.lookup (asciiToLower c))

/-- A provider search result (`types.GooglePlaceResult`,
validation_routes part of types): the fields consumed by the ingestion
pipeline. Coordinates, ratings are `float64` in Go, modelled as `ℚ`. -/
structure GooglePlaceResult where
  placeID : String
  name : String
  types : List String
  lat : ℚ
  lng : ℚ
  rating : Option ℚ
  userRatingsTotal : Option Int
deriving DecidableEq

/-- `types.PlaceForClustering` (points_config.go lines 605-611). -/
structure PlaceForClustering where
  latitude : ℚ
  longitude : ℚ
  categories : List String
  rating : Option ℚ
  name : String

/-- The rating term of `calculatePlaceImportanceScore`
(place_controller.go lines 994-997): `(rating − 3.0) × 10` when a
rating is present, otherwise nothing is added. -/
def ratingContribution (rating : Option ℚ) : ℚ :=
  match rating with
  | some r => (r - 3) * 10
  | none => 0

/-- The review-count term of `calculatePlaceImportanceScore`
(place_controller.go lines 999-1019). -/
def reviewContribution (userRatingsTotal : Option Int) : ℚ :=
  match userRatingsTotal with
  | some n =>
    if 1000 ≤ n then 50
    else if 500 ≤ n then 40
    else if 200 ≤ n then 30
    else if 100 ≤ n then 25
    else if 50 ≤ n then 20
    else if 20 ≤ n then 15
    else if 10 ≤ n then 10
    else 5
  | none => 0

/-- The per-category bonus of the category `switch` in
`calculatePlaceImportanceScore` (place_controller.go lines 1022-1034). -/
def firstCategoryBonus (category : String) : ℚ :=
  if ["tourist_attraction", "museum", "historical_site",
      "natural_feature"].contains (asciiToLower category) then 30
  else if ["park", "restaurant", "shopping_mall",
      "theater"].contains (asciiToLower category) then 20
  else if ["cafe", "store", "gym"].contains (asciiToLower category) then 10
  else 5

/-- The category term of `calculatePlaceImportanceScore`: the loop over
`place.Types` breaks after its first iteration, so only the first
category contributes (nothing when the list is empty). -/
def categoryContribution (types : List String) : ℚ :=
  match types with
  | [] => 0
  | category :: _ => firstCategoryBonus category

/-- `calculatePlaceImportanceScore` (place_controller.go lines
991-1037): `score := 0`, then the three contributions added in turn. -/
def calculatePlaceImportanceScore (place : GooglePlaceResult) : ℚ :=
  ratingContribution place.rating + reviewContribution place.userRatingsTotal +
    categoryContribution place.types

/-- Go's `math.Atan2` as used by `CalculateDistance`. -/
noncomputable def atan2 (y x : ℝ) : ℝ :=
  if 0 < x then Real.arctan (y / x)
  else if x < 0 then
    if 0 ≤ y then Real.arctan (y / x) + Real.pi
    else Real.arctan (y / x) - Real.pi
  else if 0 < y then Real.pi / 2
  else if y < 0 then -(Real.pi / 2)
  else 0

/-- `types.CalculateDistance` (points_config.go lines 557-575):
Haversine distance in kilometers, using the source's own constants
`R = 6371` and `PI = 3.14159265359`. -/
noncomputable def CalculateDistance (lat1 lng1 lat2 lng2 : ℝ) : ℝ :=
  let R : ℝ := 6371
  let PI : ℝ := 3.14159265359
  let lat1Rad := lat1 * PI / 180
  let lng1Rad := lng1 * PI / 180
  let lat2Rad := lat2 * PI / 180
  let lng2Rad := lng2 * PI / 180
  let dlat := lat2Rad - lat1Rad
  let dlng := lng2Rad - lng1Rad
  let a := Real.sin (dlat / 2) * Real.sin (dlat / 2) +
    Real.cos lat1Rad * Real.cos lat2Rad *
      (Real.sin (dlng / 2) * Real.sin (dlng / 2))
  let c := 2 * atan2 (Real.sqrt a) (Real.sqrt (1 - a))
  R * c

/-- `gridSize` of `selectBestDistributedPlaces` (place_controller.go
line 1048): 0.01 degrees, roughly 1 km cells. -/
def gridSize : ℚ := 1/100

/-- The grid cell of a coordinate pair. The source keys cells by the
string `"%.2f,%.2f"` of `floor(lat/gridSize)*gridSize` and
`floor(lng/gridSize)*gridSize`; for coordinates in range two points get
the same key exactly when their floor pairs coincide, so the cell
identity is modelled by the pair of floors. -/
def cellKey (lat lng : ℚ) : Int × Int :=
  (⌊lat / gridSize⌋, ⌊lng / gridSize⌋)

/-- The Pass-3 proximity test of `selectBestDistributedPlaces`
(place_controller.go lines 1126-1135): some already-selected candidate
is within 0.2 km of `place`. -/
def tooClose (selected : List (GooglePlaceResult × ℕ))
    (place : GooglePlaceResult) : Prop :=
  ∃ sel ∈ selected,
    CalculateDistance (place.lat : ℝ) (place.lng : ℝ)
      (sel.1.lat : ℝ) (sel.1.lng : ℝ) < 0.2

/-- Pass 1 of `selectBestDistributedPlaces` (place_controller.go lines
1059-1076): accept every candidate of importance ≥ 80 (no
already-selected check), marking its grid cell. Selections are tagged
with their pass number (ghost information; the source keeps only the
candidate). -/
def pass1 (maxPlaces : ℕ) :
    List GooglePlaceResult → List (GooglePlaceResult × ℕ) →
    List (Int × Int) → List (GooglePlaceResult × ℕ) × List (Int × Int)
  | [], selected, occupied => (selected, occupied)
  | place :: rest, selected, occupied =>
    if maxPlaces ≤ selected.length then (selected, occupied)
    else if 80 ≤ calculatePlaceImportanceScore place then
      pass1 maxPlaces rest (selected ++ [(place, 1)])
        (cellKey place.lat place.lng :: occupied)
    else pass1 maxPlaces rest selected occupied

/-- Pass 2 of `selectBestDistributedPlaces` (place_controller.go lines
1078-1105): skip candidates already selected (by `PlaceID`), accept
those whose grid cell is unoccupied, marking the cell. -/
def pass2 (maxPlaces : ℕ) :
    List GooglePlaceResult → List (GooglePlaceResult × ℕ) →
    List (Int × Int) → List (GooglePlaceResult × ℕ) × List (Int × Int)
  | [], selected, occupied => (selected, occupied)
  | place :: rest, selected, occupied =>
    if maxPlaces ≤ selected.length then (selected, occupied)
    else if selected.any (fun sel => sel.1.placeID == place.placeID) then
      pass2 maxPlaces rest selected occupied
    else if occupied.contains (cellKey place.lat place.lng) then
      pass2 maxPlaces rest selected occupied
    else
      pass2 maxPlaces rest (selected ++ [(place, 2)])
        (cellKey place.lat place.lng :: occupied)

open Classical in
/-- Pass 3 of `selectBestDistributedPlaces` (place_controller.go lines
1107-1140): skip candidates already selected (by `PlaceID`), accept
those not within 0.2 km of any already-selected candidate, ignoring
grid occupancy. -/
noncomputable def pass3 (maxPlaces : ℕ) :
    List GooglePlaceResult → List (GooglePlaceResult × ℕ) →
    List (GooglePlaceResult × ℕ)
  | [], selected => selected
  | place :: rest, selected =>
    if maxPlaces ≤ selected.length then selected
    else if selected.any (fun sel => sel.1.placeID == place.placeID) then
      pass3 maxPlaces rest selected
    else if tooClose selected place then
      pass3 maxPlaces rest selected
    else pass3 maxPlaces rest (selected ++ [(place, 3)])

/-- `selectBestDistributedPlaces` (place_controller.go lines
1040-1143) with pass tags retained: empty input yields empty output;
otherwise the grid cells of the pre-existing places are marked occupied
and the three passes run in sequence over the candidate list. -/
noncomputable def selectBestDistributedPlacesTagged
    (candidates : List GooglePlaceResult)
    (existing : List PlaceForClustering) (maxPlaces : ℕ) :
    List (GooglePlaceResult × ℕ) :=
  if candidates.isEmpty then []
  else
    let occupied0 := existing.map (fun p => cellKey p.latitude p.longitude)
    let r1 := pass1 maxPlaces candidates [] occupied0
    let r2 := pass2 maxPlaces candidates r1.1 r1.2
    pass3 maxPlaces candidates r2.1

/-- `selectBestDistributedPlaces` as in the source (tags dropped). -/
noncomputable def selectBestDistributedPlaces
    (candidates : List GooglePlaceResult)
    (existing : List PlaceForClustering) (maxPlaces : ℕ) :
    List GooglePlaceResult :=
  (selectBestDistributedPlacesTagged candidates existing maxPlaces).map
    Prod.fst

/-- The radius normalization of `GetNearbyPlaces` (place_controller.go
lines 127-130): default 20 km, caller-supplied positive radius is in
meters and converted to km. -/
def baseRadius (radiusParam : ℚ) : ℚ :=
  if 0 < radiusParam then radiusParam / 1000 else 20

/-- The full radius resolution of `GetNearbyPlaces` (place_controller.go
lines 127-147): zoom scaling by `2 − min(zoomLevel/20, 1)` and the
clamp to [0.1 km, 50 km]. -/
def resolveSearchRadius (radiusParam : ℚ) (zoomLevel : Int) : ℚ :=
  let radius := if 0 < radiusParam then radiusParam / 1000 else 20
  let zoomFactor : ℚ := (zoomLevel : ℚ) / 20
  let zoomFactor := if 1 < zoomFactor then 1 else zoomFactor
  let radius := radius * (2 - zoomFactor)
  let radius := if radius < 1/10 then 1/10 else radius
  if 50 < radius then 50 else radius

/-- The claim's formula for the resolved radius: base radius times
`(2 − min(zoomLevel/20, 1))`, clamped to [0.1, 50]. -/
def claimedResolvedRadius (radiusParam : ℚ) (zoomLevel : Int) : ℚ :=
  min 50 (max (1/10)
    (baseRadius radiusParam * (2 - min ((zoomLevel : ℚ) / 20) 1)))

/-- `USER_VISITED_POINTS` (points_config.go line 10). -/
def USER_VISITED_POINTS : Int := 1

/-- `NO_POSTS_BONUS_POINTS` (points_config.go line 11). -/
def NO_POSTS_BONUS_POINTS : Int := 3

/-- The dynamic point value `CASE` of the `GetNearbyPlaces` query
(place_controller.go lines 160-167): the user already posted here →
`USER_VISITED_POINTS`; nobody posted here → stored base points plus
`NO_POSTS_BONUS_POINTS`; otherwise the stored base points. -/
def dynamicPointValue (userHasPostedHere anyPostsHere : Bool)
    (basePointsStored : Int) : Int :=
  if userHasPostedHere then USER_VISITED_POINTS
  else if !anyPostsHere then basePointsStored + NO_POSTS_BONUS_POINTS
  else basePointsStored

/-- The outcome of one storage query: GORM's error flag, the number of
rows returned, and the markers built from those rows. -/
structure QueryResult (α : Type) where
  error : Bool
  rowsAffected : Nat
  markers : List α

/-- An HTTP reply of `GetNearbyPlaces`: status code and, on success,
the marker list sent to the caller. -/
structure NearbyReply (α : Type) where
  status : Nat
  markers : Option (List α)

/-- The response control flow of `GetNearbyPlaces` after the first
storage query (place_controller.go lines 226-329): fewer than 20 rows
trigger ingestion; on ingestion failure the handler falls back to the
existing rows (empty 200 reply when there are none); on ingestion
success it re-queries and replies with the fresh rows. -/
def nearbyRespond {α : Type} (first : QueryResult α)
    (ingestionFailed : Bool) (requery : QueryResult α) : NearbyReply α :=
  if first.rowsAffected < 20 then
    if ingestionFailed then
      if first.rowsAffected = 0 then ⟨200, some []⟩
      else if first.error then ⟨500, none⟩
      else ⟨200, some first.markers⟩
    else
      if requery.error then ⟨500, none⟩
      else ⟨200, some requery.markers⟩
  else
    if first.error then ⟨500, none⟩
    else ⟨200, some first.markers⟩

/-- One provider page: the response status and the continuation
token (empty string when the provider supplies none). -/
structure GooglePage where
  status : String
  nextPageToken : String

/-- The page-fetch skeleton of `fetchAndSaveFromGooglePlacesWithToken`
(place_controller.go lines 337-539), with the provider abstracted as a
token → page oracle. The result lists the `pageCount` values at which
an HTTP page request was issued: the guard returns before any request
once `pageCount` reaches 3; a missing API key aborts before any
request; an error status consumes one request and aborts; otherwise the
function recurses exactly when a continuation token is present and
`pageCount < 2`. -/
def fetchAndSaveFromGooglePlacesWithToken (provider : String → GooglePage)
    (apiKey : String) (pageToken : String) (pageCount : Nat) : List Nat :=
  if h : 3 ≤ pageCount then []
  else if apiKey = "" then []
  else
    let page := provider pageToken
    if page.status ≠ "OK" ∧ page.status ≠ "ZERO_RESULTS" then [pageCount]
    else if page.nextPageToken ≠ "" ∧ pageCount < 2 then
      pageCount :: fetchAndSaveFromGooglePlacesWithToken provider apiKey
        page.nextPageToken (pageCount + 1)
    else [pageCount]
termination_by 3 - pageCount
decreasing_by omega

/-- The response of `ValidatePostLocation` (place_controller.go lines
905-932), restricted to the fields the claim is about.  The
diagnostic fields are `none` when absent from the JSON object. -/
structure ValidateLocationReply where
  status : Nat
  isWithinRadius : Bool
  canPost : Bool
  errorMsg : Option String
  requiredDistance : Option Int
  yourDistance : Option Int
  distanceDifference : Option Int

open Classical in
/-- The response computation of `ValidatePostLocation`
(place_controller.go lines 891-932) for an existing place and parseable
coordinates: distance in meters via the Haversine, radius from the
resolver, permission fields hard-coded `true` (the `isWithinRadius`
assignments are commented out in the source), diagnostics added only in
the too-far case. The Haversine distance is non-negative, so Go's
`int(distanceMeters)` truncation equals the floor. -/
noncomputable def ValidatePostLocation (userLat userLng : ℝ)
    (placeLat placeLng : ℝ) (categories : List String) :
    ValidateLocationReply :=
  let distanceMeters := CalculateDistance userLat userLng placeLat placeLng * 1000
  let postRadius := (GetPlacePostRadius categories).radius
  let isWithin := distanceMeters ≤ (postRadius : ℝ)
  { status := 200
    isWithinRadius := true
    canPost := true
    errorMsg := if isWithin then none
      else some ("You are too far from this place to post")
    requiredDistance := if isWithin then none else some postRadius
    yourDistance := if isWithin then none else some ⌊distanceMeters⌋
    distanceDifference := if isWithin then none
      else some (⌊distanceMeters⌋ - postRadius) }

/-- `fetchAndSaveFromGooglePlaces` (place_controller.go lines 333-335):
the ingestion entry point starts the page recursion with an empty token
and page counter 0. -/
def fetchAndSaveFromGooglePlaces (provider : String → GooglePage)
    (apiKey : String) : List Nat :=
  fetchAndSaveFromGooglePlacesWithToken provider apiKey "" 0

/-- The spacing the selector actually guarantees between an earlier
selection `a` and a later selection `b`: a Pass-3 acceptance is at
least 0.2 km (as measured by the Pass-3 check itself) from everything
selected before it, and a Pass-2 acceptance lies in a different grid
cell than every earlier Pass-1 or Pass-2 acceptance. -/
def selectorSpacing (a b : GooglePlaceResult × ℕ) : Prop :=
  (b.2 = 3 →
    ¬ (CalculateDistance (b.1.lat : ℝ) (b.1.lng : ℝ)
        (a.1.lat : ℝ) (a.1.lng : ℝ) < 0.2)) ∧
  (b.2 = 2 → a.2 = 1 ∨ a.2 = 2 →
    cellKey b.1.lat b.1.lng ≠ cellKey a.1.lat a.1.lng)

/-- Concrete candidate for the C2 counterexample: a low-importance cafe
just below the 0.01° grid line. -/
def cafeNearA : GooglePlaceResult :=
  { placeID := "cafe-a", name := "Cafe A", types := ["cafe"],
    lat := 999/100000, lng := 0, rating := none, userRatingsTotal := none }

/-- Concrete candidate for the C2 counterexample: a low-importance cafe
just above the 0.01° grid line, 2.2 m north of `cafeNearA`. -/
def cafeNearB : GooglePlaceResult :=
  { placeID := "cafe-b", name := "Cafe B", types := ["cafe"],
    lat := 1001/100000, lng := 0, rating := none, userRatingsTotal := none }

/-- Concrete candidate for the C10 counterexample: a high-importance
landmark (importance 95 ≥ 80). -/
def grandCastle : GooglePlaceResult :=
  { placeID := "landmark-1", name := "Grand Castle",
    types := ["tourist_attraction"], lat := 1/2, lng := 1/2,
    rating := some (9/2), userRatingsTotal := some 2000 }

/-! Helper lemmas. -/

theorem clampPoints_bounds (t : Int) :
    10 ≤ clampPoints t ∧ clampPoints t ≤ 60 := by
  unfold clampPoints
  split_ifs <;> omega

theorem roundToFive_props (t : Int) (h1 : 10 ≤ t) (h2 : t ≤ 60) :
    10 ≤ (t + 2) / 5 * 5 ∧ (t + 2) / 5 * 5 ≤ 60 ∧ 5 ∣ (t + 2) / 5 * 5 := by
  interval_cases t <;> decide

theorem maxLookupFold_eq_foldl_max (table : List (String × Int))
    (categories : List String) : ∀ start : Int,
    maxLookupFold table start categories =
      (categories.filterMap
        (fun c => table.lookup (asciiToLower c))).foldl max start := by
  induction categories with
  | nil => intro s; rfl
  | cons c rest ih =>
    intro s
    simp only [maxLookupFold, List.foldl_cons, List.filterMap_cons]
    cases h : table.lookup (asciiToLower c) with
    | none =>
      simpa only [maxLookupFold] using ih s
    | some v =>
      have hstep : (if s < v then v else s) = max s v := by
        rcases lt_or_le s v with hlt | hle
        · simp [hlt, max_eq_right hlt.le]
        · simp [not_lt.mpr hle, max_eq_left hle]
      simp only [List.foldl_cons, hstep]
      simpa only [maxLookupFold] using ih (max s v)

theorem le_foldl_max (l : List Int) : ∀ s : Int, s ≤ l.foldl max s := by
  induction l with
  | nil => intro s; simp
  | cons x rest ih =>
    intro s
    simpa using le_trans (le_max_left s x) (ih (max s x))

/-! Claim theorems. -/

/-- C1: for every category list, optional rating and optional review
count, `CalculatePlacePoints` returns an integer in [10, 60] that is a
multiple of 5, and it equals the sum of the base category weight, the
rating bonus, the popularity bonus and the special-combination bonuses,
clamped to [10, 60] and then rounded with `((x+2)/5)*5`. -/
theorem C1_points_engine (categories : List String) (rating : Option ℚ)
    (userRatingsTotal : Option Int) :
    10 ≤ CalculatePlacePoints categories rating userRatingsTotal ∧
    CalculatePlacePoints categories rating userRatingsTotal ≤ 60 ∧
    5 ∣ CalculatePlacePoints categories rating userRatingsTotal ∧
    CalculatePlacePoints categories rating userRatingsTotal =
      (clampPoints (basePoints categories + ratingBonus rating +
        popularityBonus userRatingsTotal + specialBonus categories) + 2) / 5 * 5 := by
  have hb := clampPoints_bounds (basePoints categories + ratingBonus rating +
    popularityBonus userRatingsTotal + specialBonus categories)
  have hr := roundToFive_props _ hb.1 hb.2
  exact ⟨hr.1, hr.2.1, hr.2.2, rfl⟩

/-- C3 counterexample: the category `"cafe"` matches the radius table
(with 20 m), yet `GetPlacePostRadius` returns the default 25 m — so the
resolver neither returns the maximum matched radius (20) nor returns
the default only when no category matches. -/
theorem C3_counterexample :
    (GetPlacePostRadius ["cafe"]).radius = 25 ∧
    CategoryRadius.lookup ("cafe") = some 20 ∧ (25 : Int) ≠ 20 := by
  refine ⟨by decide, by decide, by decide⟩

/-- C3 amended: `GetPlacePostRadius` never returns a radius below the
default floor of 25 m; it returns the maximum of the default 25 and the
radii of the categories matched (case-insensitively) in the table — so
matched radii of at most 25 are absorbed by the floor — and it returns
exactly 25 whenever no category matches. -/
theorem C3_radius_resolver_amended (categories : List String) :
    25 ≤ (GetPlacePostRadius categories).radius ∧
    (GetPlacePostRadius categories).radius =
      (matchedRadii categories).foldl max 25 ∧
    (matchedRadii categories = [] →
      (GetPlacePostRadius categories).radius = 25) := by
  have hr : (GetPlacePostRadius categories).radius =
      maxLookupFold CategoryRadius DefaultRadius categories := rfl
  have he : (GetPlacePostRadius categories).radius =
      (matchedRadii categories).foldl max 25 := by
    rw [hr, maxLookupFold_eq_foldl_max]
    rfl
  refine ⟨?_, he, ?_⟩
  · rw [he]
    exact le_foldl_max _ 25
  · intro hnone
    rw [he, hnone]
    rfl

theorem C3_radius_resolver_amended_witness :
    matchedRadii ["zzz"] = [] ∧ (GetPlacePostRadius ["zzz"]).radius = 25 :=
  ⟨by decide, (C3_radius_resolver_amended ["zzz"]).2.2 (by decide)⟩

/-- C4: the importance score is the sum of a rating term
`(rating − 3) × 10` (when present), a review-count step function taking
the values 10/15/20/25/30/40/50 at the increasing thresholds
10/20/50/100/200/500/1000 (5 below 10, nothing when absent), and a
category bonus computed from only the first category of the candidate
(later categories never change it) — unlike the Points Engine base
weight, which maximizes over all categories: on
`["cafe", "castle"]` the scorer contributes 10 (cafe band) while the
Points Engine base weight is 60 (castle). -/
theorem C4_importance_components (place : GooglePlaceResult) :
    calculatePlaceImportanceScore place =
      ratingContribution place.rating +
        reviewContribution place.userRatingsTotal +
        categoryContribution place.types ∧
    (∀ r : ℚ, ratingContribution (some r) = (r - 3) * 10) ∧
    (∀ n : Int, 10 ≤ n → n < 20 → reviewContribution (some n) = 10) ∧
    (∀ n : Int, 20 ≤ n → n < 50 → reviewContribution (some n) = 15) ∧
    (∀ n : Int, 50 ≤ n → n < 100 → reviewContribution (some n) = 20) ∧
    (∀ n : Int, 100 ≤ n → n < 200 → reviewContribution (some n) = 25) ∧
    (∀ n : Int, 200 ≤ n → n < 500 → reviewContribution (some n) = 30) ∧
    (∀ n : Int, 500 ≤ n → n < 1000 → reviewContribution (some n) = 40) ∧
    (∀ n : Int, 1000 ≤ n → reviewContribution (some n) = 50) ∧
    (∀ n : Int, n < 10 → reviewContribution (some n) = 5) ∧
    (∀ (category : String) (rest1 rest2 : List String),
      categoryContribution (category :: rest1) =
        categoryContribution (category :: rest2)) ∧
    categoryContribution ["cafe", "castle"] = 10 ∧
    basePoints ["cafe", "castle"] = 60 := by
  refine ⟨rfl, fun r => rfl, ?_, ?_, ?_, ?_, ?_, ?_, ?_, ?_,
    fun c r1 r2 => rfl, ?_, ?_⟩
  · intro n h1 h2; simp only [reviewContribution]; split_ifs <;> first | rfl | omega
  · intro n h1 h2; simp only [reviewContribution]; split_ifs <;> first | rfl | omega
  · intro n h1 h2; simp only [reviewContribution]; split_ifs <;> first | rfl | omega
  · intro n h1 h2; simp only [reviewContribution]; split_ifs <;> first | rfl | omega
  · intro n h1 h2; simp only [reviewContribution]; split_ifs <;> first | rfl | omega
  · intro n h1 h2; simp only [reviewContribution]; split_ifs <;> first | rfl | omega
  · intro n h1; simp only [reviewContribution]; split_ifs <;> first | rfl | omega
  · intro n h1; simp only [reviewContribution]; split_ifs <;> first | rfl | omega
  · decide
  · decide

theorem C4_importance_components_witness :
    ((10 : Int) ≤ 15 ∧ (15 : Int) < 20) ∧ reviewContribution (some 15) = 10 :=
  ⟨⟨by decide, by decide⟩,
    (C4_importance_components
      ⟨"x", "x", [], 0, 0, none, none⟩).2.2.1 15 (by decide) (by decide)⟩

theorem resolveSearchRadius_eq_claimed (radiusParam : ℚ) (zoomLevel : Int) :
    resolveSearchRadius radiusParam zoomLevel =
      claimedResolvedRadius radiusParam zoomLevel := by
  simp only [resolveSearchRadius, claimedResolvedRadius, baseRadius]
  have h1 : (if 1 < (zoomLevel : ℚ) / 20 then 1 else (zoomLevel : ℚ) / 20) =
      min ((zoomLevel : ℚ) / 20) 1 := by
    rcases le_or_lt ((zoomLevel : ℚ) / 20) 1 with h | h
    · rw [if_neg (not_lt.mpr h), min_eq_left h]
    · rw [if_pos h, min_eq_right h.le]
  rw [h1]
  set x : ℚ := (if 0 < radiusParam then radiusParam / 1000 else 20) *
    (2 - min ((zoomLevel : ℚ) / 20) 1) with hx
  have h2 : (if x < 1/10 then 1/10 else x) = max (1/10) x := by
    rcases lt_or_le x (1/10) with h | h
    · rw [if_pos h, max_eq_left h.le]
    · rw [if_neg (not_lt.mpr h), max_eq_right h]
  rw [h2]
  have h3 : (if 50 < max (1/10) x then 50 else max (1/10) x) =
      min 50 (max (1/10) x) := by
    rcases lt_or_le 50 (max (1/10) x) with h | h
    · rw [if_pos h, min_eq_left h.le]
    · rw [if_neg (not_lt.mpr h), min_eq_right h]
  rw [h3]

/-- C5: the resolved search radius equals the caller-supplied base
radius (default 20 km if none) multiplied by `(2 − min(zoomLevel/20,1))`
and clamped to [0.1 km, 50 km]; at zoomLevel 20 an in-clamp base radius
is returned unchanged, and at zoomLevel 10 with no caller radius the
result is 30 km. -/
theorem C5_radius_resolution :
    (∀ (radiusParam : ℚ) (zoomLevel : Int),
      resolveSearchRadius radiusParam zoomLevel =
        claimedResolvedRadius radiusParam zoomLevel) ∧
    (∀ radiusParam : ℚ, 1/10 ≤ baseRadius radiusParam →
      baseRadius radiusParam ≤ 50 →
      resolveSearchRadius radiusParam 20 = baseRadius radiusParam) ∧
    resolveSearchRadius 0 10 = 30 := by
  refine ⟨resolveSearchRadius_eq_claimed, ?_, by norm_num [resolveSearchRadius]⟩
  intro r h1 h2
  rw [resolveSearchRadius_eq_claimed]
  unfold claimedResolvedRadius
  have hmin : min (((20 : Int) : ℚ) / 20) 1 = 1 := by norm_num
  rw [hmin]
  have hbase : baseRadius r * (2 - 1) = baseRadius r := by ring
  rw [hbase, max_eq_right h1, min_eq_right h2]

theorem C5_radius_resolution_witness :
    ((1 : ℚ)/10 ≤ baseRadius 5000 ∧ baseRadius 5000 ≤ 50) ∧
    resolveSearchRadius 5000 20 = baseRadius 5000 :=
  ⟨⟨by norm_num [baseRadius], by norm_num [baseRadius]⟩,
    C5_radius_resolution.2.1 5000 (by norm_num [baseRadius])
      (by norm_num [baseRadius])⟩

/-- C6: the dynamic point value of a returned place is exactly one of
three cases — the fixed already-visited value 1 when the requesting
user has posted there, the stored base value plus the fixed first-ever
bonus 3 when nobody has posted there, and the stored base value
unchanged otherwise. -/
theorem C6_dynamic_point_value (userHasPostedHere anyPostsHere : Bool)
    (basePointsStored : Int) :
    (userHasPostedHere = true →
      dynamicPointValue userHasPostedHere anyPostsHere basePointsStored = 1) ∧
    (userHasPostedHere = false → anyPostsHere = false →
      dynamicPointValue userHasPostedHere anyPostsHere basePointsStored =
        basePointsStored + 3) ∧
    (userHasPostedHere = false → anyPostsHere = true →
      dynamicPointValue userHasPostedHere anyPostsHere basePointsStored =
        basePointsStored) ∧
    USER_VISITED_POINTS = 1 ∧ NO_POSTS_BONUS_POINTS = 3 := by
  cases userHasPostedHere <;> cases anyPostsHere <;>
    simp [dynamicPointValue, USER_VISITED_POINTS, NO_POSTS_BONUS_POINTS]

theorem C6_dynamic_point_value_witness :
    dynamicPointValue true false 40 = 1 ∧
    dynamicPointValue false false 40 = 43 ∧
    dynamicPointValue false true 40 = 40 :=
  ⟨(C6_dynamic_point_value true false 40).1 rfl,
    (C6_dynamic_point_value false false 40).2.1 rfl rfl,
    (C6_dynamic_point_value false true 40).2.2.1 rfl rfl⟩

/-- C7: when a sparse first query (fewer than 20 rows) triggers
ingestion and the ingestion fails, the handler still replies 200: with
an empty marker list when the store had no rows, and with the markers
of the existing rows otherwise. The hypothesis `hgorm` records GORM's
contract that an errored query reports zero affected rows. -/
theorem C7_graceful_degradation {α : Type} (first requery : QueryResult α)
    (hsparse : first.rowsAffected < 20)
    (hgorm : first.error = true → first.rowsAffected = 0) :
    (nearbyRespond first true requery).status = 200 ∧
    (first.rowsAffected = 0 →
      (nearbyRespond first true requery).markers = some []) ∧
    (0 < first.rowsAffected →
      (nearbyRespond first true requery).markers = some first.markers) := by
  by_cases h0 : first.rowsAffected = 0
  · simp [nearbyRespond, hsparse, h0]
  · have herr : first.error = false := by
      cases hfe : first.error
      · rfl
      · exact absurd (hgorm hfe) h0
    simp [nearbyRespond, hsparse, h0, herr]

theorem C7_graceful_degradation_witness :
    ((⟨false, 0, []⟩ : QueryResult Nat).rowsAffected < 20 ∧
      ((⟨false, 0, []⟩ : QueryResult Nat).error = true →
        (⟨false, 0, []⟩ : QueryResult Nat).rowsAffected = 0)) ∧
    (nearbyRespond (⟨false, 0, []⟩ : QueryResult Nat) true
      ⟨false, 0, []⟩).status = 200 ∧
    (nearbyRespond (⟨false, 0, []⟩ : QueryResult Nat) true
      ⟨false, 0, []⟩).markers = some [] :=
  ⟨⟨by decide, fun h => rfl⟩,
    (C7_graceful_degradation ⟨false, 0, []⟩ ⟨false, 0, []⟩ (by decide)
      (fun h => rfl)).1,
    (C7_graceful_degradation ⟨false, 0, []⟩ ⟨false, 0, []⟩ (by decide)
      (fun h => rfl)).2.1 rfl⟩

theorem fetch_pages_spec (provider : String → GooglePage) (apiKey : String) :
    ∀ n pageCount : Nat, 3 - pageCount ≤ n → ∀ pageToken,
      (fetchAndSaveFromGooglePlacesWithToken provider apiKey pageToken
        pageCount).length ≤ 3 - pageCount ∧
      ∀ i ∈ fetchAndSaveFromGooglePlacesWithToken provider apiKey pageToken
        pageCount, pageCount ≤ i ∧ i < 3 := by
  intro n
  induction n with
  | zero =>
    intro pc hpc tok
    have h3 : 3 ≤ pc := by omega
    simp [fetchAndSaveFromGooglePlacesWithToken, h3]
  | succ n ih =>
    intro pc hpc tok
    by_cases h3 : 3 ≤ pc
    · simp [fetchAndSaveFromGooglePlacesWithToken, h3]
    · rw [fetchAndSaveFromGooglePlacesWithToken]
      rw [dif_neg h3]
      by_cases hkey : apiKey = ""
      · simp [hkey]
      · rw [if_neg hkey]
        by_cases herr : (provider tok).status ≠ "OK" ∧
            (provider tok).status ≠ "ZERO_RESULTS"
        · rw [if_pos herr]
          refine ⟨by simp; omega, ?_⟩
          intro i hi
          rcases List.mem_singleton.mp hi with rfl
          omega
        · rw [if_neg herr]
          by_cases hnext : (provider tok).nextPageToken ≠ "" ∧ pc < 2
          · rw [if_pos hnext]
            obtain ⟨hlen, hmem⟩ :=
              ih (pc + 1) (by omega) (provider tok).nextPageToken
            refine ⟨by simp only [List.length_cons]; omega, ?_⟩
            intro i hi
            rcases List.mem_cons.mp hi with rfl | hi2
            · exact ⟨le_refl _, by omega⟩
            · have h := hmem i hi2
              exact ⟨by omega, h.2⟩
          · rw [if_neg hnext]
            refine ⟨by simp; omega, ?_⟩
            intro i hi
            rcases List.mem_singleton.mp hi with rfl
            omega

/-- C9: the page recursion issues at most `3 − pageCount` provider
requests (so an ingestion call, which starts at page counter 0, fetches
at most 3 pages); it returns immediately once the counter reaches 3;
and every issued request happens at a counter below 3 — the recursion
only continues while a continuation token is present and the counter is
below the bound, and it terminates (the model is a total function). -/
theorem C9_page_bound (provider : String → GooglePage)
    (apiKey pageToken : String) (pageCount : Nat) :
    (fetchAndSaveFromGooglePlacesWithToken provider apiKey pageToken
      pageCount).length ≤ 3 - pageCount ∧
    (3 ≤ pageCount → fetchAndSaveFromGooglePlacesWithToken provider apiKey
      pageToken pageCount = []) ∧
    (∀ i ∈ fetchAndSaveFromGooglePlacesWithToken provider apiKey pageToken
      pageCount, pageCount ≤ i ∧ i < 3) ∧
    (fetchAndSaveFromGooglePlaces provider apiKey).length ≤ 3 := by
  obtain ⟨h1, h2⟩ :=
    fetch_pages_spec provider apiKey (3 - pageCount) pageCount le_rfl pageToken
  refine ⟨h1, ?_, h2, ?_⟩
  · intro h3
    simp [fetchAndSaveFromGooglePlacesWithToken, h3]
  · obtain ⟨h1b, _⟩ := fetch_pages_spec provider apiKey 3 0 (by omega) ""
    simpa [fetchAndSaveFromGooglePlaces] using h1b

theorem C9_page_bound_witness :
    ((3 : Nat) ≤ 3 ∧
      fetchAndSaveFromGooglePlacesWithToken (fun _ => ⟨"OK", ""⟩) ("key")
        ("") 3 = []) ∧
    (0 ∈ fetchAndSaveFromGooglePlacesWithToken (fun _ => ⟨"OK", ""⟩) ("key")
        ("") 0 ∧ (0 ≤ 0 ∧ 0 < 3)) := by
  have hrun : fetchAndSaveFromGooglePlacesWithToken (fun _ => ⟨"OK", ""⟩)
      ("key") ("") 0 = [0] := by
    rw [fetchAndSaveFromGooglePlacesWithToken]
    simp
  have hmem : 0 ∈ fetchAndSaveFromGooglePlacesWithToken (fun _ => ⟨"OK", ""⟩)
      ("key") ("") 0 := by
    rw [hrun]
    exact List.mem_singleton.mpr rfl
  exact ⟨⟨by decide,
    (C9_page_bound (fun _ => ⟨"OK", ""⟩) ("key") ("") 3).2.1 (by decide)⟩,
    hmem,
    (C9_page_bound (fun _ => ⟨"OK", ""⟩) ("key") ("") 0).2.2.1 0 hmem⟩

theorem calculateDistance_self (lat lng : ℝ) :
    CalculateDistance lat lng lat lng = 0 := by
  norm_num [CalculateDistance, atan2, Real.arctan_zero]

/-- C8: for every parseable validate-location request against an
existing place, the response reports HTTP 200 with
`is_within_radius = true` and `can_post = true` unconditionally; when
the Haversine distance (in meters) exceeds the resolved post radius,
the diagnostic fields `error`, `required_distance`, `your_distance` and
`distance_difference` are added while the permission fields stay true,
and no diagnostics appear otherwise. -/
theorem C8_validate_location (userLat userLng placeLat placeLng : ℝ)
    (categories : List String) :
    (ValidatePostLocation userLat userLng placeLat placeLng
      categories).status = 200 ∧
    (ValidatePostLocation userLat userLng placeLat placeLng
      categories).isWithinRadius = true ∧
    (ValidatePostLocation userLat userLng placeLat placeLng
      categories).canPost = true ∧
    (((GetPlacePostRadius categories).radius : ℝ) <
        CalculateDistance userLat userLng placeLat placeLng * 1000 →
      (ValidatePostLocation userLat userLng placeLat placeLng
        categories).errorMsg =
          some ("You are too far from this place to post") ∧
      (ValidatePostLocation userLat userLng placeLat placeLng
        categories).requiredDistance =
          some (GetPlacePostRadius categories).radius ∧
      (ValidatePostLocation userLat userLng placeLat placeLng
        categories).yourDistance =
          some ⌊CalculateDistance userLat userLng placeLat placeLng * 1000⌋ ∧
      (ValidatePostLocation userLat userLng placeLat placeLng
        categories).distanceDifference =
          some (⌊CalculateDistance userLat userLng placeLat placeLng * 1000⌋ -
            (GetPlacePostRadius categories).radius)) ∧
    (CalculateDistance userLat userLng placeLat placeLng * 1000 ≤
        ((GetPlacePostRadius categories).radius : ℝ) →
      (ValidatePostLocation userLat userLng placeLat placeLng
        categories).errorMsg = none ∧
      (ValidatePostLocation userLat userLng placeLat placeLng
        categories).requiredDistance = none ∧
      (ValidatePostLocation userLat userLng placeLat placeLng
        categories).yourDistance = none ∧
      (ValidatePostLocation userLat userLng placeLat placeLng
        categories).distanceDifference = none) := by
  by_cases h : CalculateDistance userLat userLng placeLat placeLng * 1000 ≤
      ((GetPlacePostRadius categories).radius : ℝ)
  · refine ⟨rfl, rfl, rfl, ?_, ?_⟩
    · intro hlt
      exact absurd hlt (not_lt.mpr h)
    · intro _
      exact ⟨if_pos h, if_pos h, if_pos h, if_pos h⟩
  · refine ⟨rfl, rfl, rfl, ?_, ?_⟩
    · intro _
      exact ⟨if_neg h, if_neg h, if_neg h, if_neg h⟩
    · intro hle
      exact absurd hle h

theorem C8_validate_location_witness :
    (CalculateDistance 0 0 0 0 * 1000 ≤
      (((GetPlacePostRadius []).radius : Int) : ℝ)) ∧
    (ValidatePostLocation 0 0 0 0 []).errorMsg = none ∧
    (ValidatePostLocation 0 0 0 0 []).canPost = true := by
  have h25 : (GetPlacePostRadius []).radius = 25 := rfl
  have hle : CalculateDistance 0 0 0 0 * 1000 ≤
      (((GetPlacePostRadius []).radius : Int) : ℝ) := by
    rw [calculateDistance_self, h25]
    norm_num
  exact ⟨hle, ((C8_validate_location 0 0 0 0 []).2.2.2.2 hle).1,
    (C8_validate_location 0 0 0 0 []).2.2.1⟩

theorem pass1_length_le (m : ℕ) :
    ∀ (cands : List GooglePlaceResult) (sel : List (GooglePlaceResult × ℕ))
      (occ : List (Int × Int)), sel.length ≤ m →
      (pass1 m cands sel occ).1.length ≤ m := by
  intro cands
  induction cands with
  | nil => intro sel occ h; exact h
  | cons c rest ih =>
    intro sel occ h
    simp only [pass1]
    by_cases h1 : m ≤ sel.length
    · rw [if_pos h1]; exact h
    · rw [if_neg h1]
      by_cases h2 : (80:ℚ) ≤ calculatePlaceImportanceScore c
      · rw [if_pos h2]
        refine ih _ _ ?_
        simp only [List.length_append, List.length_cons, List.length_nil]
        omega
      · rw [if_neg h2]; exact ih _ _ h

theorem pass2_length_le (m : ℕ) :
    ∀ (cands : List GooglePlaceResult) (sel : List (GooglePlaceResult × ℕ))
      (occ : List (Int × Int)), sel.length ≤ m →
      (pass2 m cands sel occ).1.length ≤ m := by
  intro cands
  induction cands with
  | nil => intro sel occ h; exact h
  | cons c rest ih =>
    intro sel occ h
    simp only [pass2]
    by_cases h1 : m ≤ sel.length
    · rw [if_pos h1]; exact h
    · rw [if_neg h1]
      by_cases h2 : sel.any (fun s => s.1.placeID == c.placeID) = true
      · rw [if_pos h2]; exact ih _ _ h
      · rw [if_neg h2]
        by_cases h3 : occ.contains (cellKey c.lat c.lng) = true
        · rw [if_pos h3]; exact ih _ _ h
        · rw [if_neg h3]
          refine ih _ _ ?_
          simp only [List.length_append, List.length_cons, List.length_nil]
          omega

theorem pass3_length_le (m : ℕ) :
    ∀ (cands : List GooglePlaceResult) (sel : List (GooglePlaceResult × ℕ)),
      sel.length ≤ m → (pass3 m cands sel).length ≤ m := by
  intro cands
  induction cands with
  | nil => intro sel h; exact h
  | cons c rest ih =>
    intro sel h
    simp only [pass3]
    by_cases h1 : m ≤ sel.length
    · rw [if_pos h1]; exact h
    · rw [if_neg h1]
      by_cases h2 : sel.any (fun s => s.1.placeID == c.placeID) = true
      · rw [if_pos h2]; exact ih _ h
      · rw [if_neg h2]
        by_cases h3 : tooClose sel c
        · rw [if_pos h3]; exact ih _ h
        · rw [if_neg h3]
          refine ih _ ?_
          simp only [List.length_append, List.length_cons, List.length_nil]
          omega

theorem pass1_nodup (m : ℕ) :
    ∀ (cands : List GooglePlaceResult) (sel : List (GooglePlaceResult × ℕ))
      (occ : List (Int × Int)),
      (sel.map (fun s => s.1.placeID) ++
        cands.map GooglePlaceResult.placeID).Nodup →
      ((pass1 m cands sel occ).1.map (fun s => s.1.placeID)).Nodup := by
  intro cands
  induction cands with
  | nil =>
    intro sel occ h
    exact List.Nodup.of_append_left h
  | cons c rest ih =>
    intro sel occ h
    simp only [List.map_cons] at h
    simp only [pass1]
    by_cases h1 : m ≤ sel.length
    · rw [if_pos h1]
      exact List.Nodup.of_append_left h
    · rw [if_neg h1]
      by_cases h2 : (80:ℚ) ≤ calculatePlaceImportanceScore c
      · rw [if_pos h2]
        apply ih
        simp only [List.map_append, List.map_cons, List.map_nil]
        simpa [List.append_assoc] using h
      · rw [if_neg h2]
        apply ih
        have hsub : List.Sublist
            (sel.map (fun s => s.1.placeID) ++
              rest.map GooglePlaceResult.placeID)
            (sel.map (fun s => s.1.placeID) ++
              (c.placeID :: rest.map GooglePlaceResult.placeID)) :=
          (List.append_sublist_append_left _).mpr
            (List.sublist_cons_self _ _)
        exact List.Nodup.sublist hsub h

theorem pass2_nodup (m : ℕ) :
    ∀ (cands : List GooglePlaceResult) (sel : List (GooglePlaceResult × ℕ))
      (occ : List (Int × Int)),
      (sel.map (fun s => s.1.placeID)).Nodup →
      ((pass2 m cands sel occ).1.map (fun s => s.1.placeID)).Nodup := by
  intro cands
  induction cands with
  | nil => intro sel occ h; exact h
  | cons c rest ih =>
    intro sel occ h
    simp only [pass2]
    by_cases h1 : m ≤ sel.length
    · rw [if_pos h1]; exact h
    · rw [if_neg h1]
      by_cases h2 : sel.any (fun s => s.1.placeID == c.placeID) = true
      · rw [if_pos h2]; exact ih _ _ h
      · rw [if_neg h2]
        by_cases h3 : occ.contains (cellKey c.lat c.lng) = true
        · rw [if_pos h3]; exact ih _ _ h
        · rw [if_neg h3]
          apply ih
          have hni : c.placeID ∉ sel.map (fun s => s.1.placeID) := by
            intro hmem
            apply h2
            rw [List.any_eq_true]
            obtain ⟨s, hs, heq⟩ := List.mem_map.mp hmem
            exact ⟨s, hs, beq_iff_eq.mpr heq⟩
          simp only [List.map_append, List.map_cons, List.map_nil]
          rw [List.nodup_append]
          refine ⟨h, List.nodup_singleton _, ?_⟩
          intro a ha hb
          rw [List.mem_singleton] at hb
          subst hb
          exact hni ha

theorem pass3_nodup (m : ℕ) :
    ∀ (cands : List GooglePlaceResult) (sel : List (GooglePlaceResult × ℕ)),
      (sel.map (fun s => s.1.placeID)).Nodup →
      ((pass3 m cands sel).map (fun s => s.1.placeID)).Nodup := by
  intro cands
  induction cands with
  | nil => intro sel h; exact h
  | cons c rest ih =>
    intro sel h
    simp only [pass3]
    by_cases h1 : m ≤ sel.length
    · rw [if_pos h1]; exact h
    · rw [if_neg h1]
      by_cases h2 : sel.any (fun s => s.1.placeID == c.placeID) = true
      · rw [if_pos h2]; exact ih _ h
      · rw [if_neg h2]
        by_cases h3 : tooClose sel c
        · rw [if_pos h3]; exact ih _ h
        · rw [if_neg h3]
          apply ih
          have hni : c.placeID ∉ sel.map (fun s => s.1.placeID) := by
            intro hmem
            apply h2
            rw [List.any_eq_true]
            obtain ⟨s, hs, heq⟩ := List.mem_map.mp hmem
            exact ⟨s, hs, beq_iff_eq.mpr heq⟩
          simp only [List.map_append, List.map_cons, List.map_nil]
          rw [List.nodup_append]
          refine ⟨h, List.nodup_singleton _, ?_⟩
          intro a ha hb
          rw [List.mem_singleton] at hb
          subst hb
          exact hni ha

theorem pass1_spacing (m : ℕ) :
    ∀ (cands : List GooglePlaceResult) (sel : List (GooglePlaceResult × ℕ))
      (occ : List (Int × Int)),
      sel.Pairwise selectorSpacing →
      (∀ s ∈ sel, s.2 = 1 ∨ s.2 = 2 → cellKey s.1.lat s.1.lng ∈ occ) →
      (pass1 m cands sel occ).1.Pairwise selectorSpacing ∧
      (∀ s ∈ (pass1 m cands sel occ).1, s.2 = 1 ∨ s.2 = 2 →
        cellKey s.1.lat s.1.lng ∈ (pass1 m cands sel occ).2) := by
  intro cands
  induction cands with
  | nil => intro sel occ hp hc; exact ⟨hp, hc⟩
  | cons c rest ih =>
    intro sel occ hp hc
    simp only [pass1]
    by_cases h1 : m ≤ sel.length
    · rw [if_pos h1]; exact ⟨hp, hc⟩
    · rw [if_neg h1]
      by_cases h2 : (80:ℚ) ≤ calculatePlaceImportanceScore c
      · rw [if_pos h2]
        apply ih
        · rw [List.pairwise_append]
          refine ⟨hp, List.pairwise_singleton _ _, ?_⟩
          intro a ha b hb
          rw [List.mem_singleton] at hb
          subst hb
          exact ⟨fun h3 => by simp at h3, fun h2b => by simp at h2b⟩
        · intro s hs htag
          rcases List.mem_append.mp hs with hs1 | hs2
          · exact List.mem_cons_of_mem _ (hc s hs1 htag)
          · rw [List.mem_singleton] at hs2
            subst hs2
            exact List.mem_cons_self _ _
      · rw [if_neg h2]; exact ih _ _ hp hc

theorem pass2_spacing (m : ℕ) :
    ∀ (cands : List GooglePlaceResult) (sel : List (GooglePlaceResult × ℕ))
      (occ : List (Int × Int)),
      sel.Pairwise selectorSpacing →
      (∀ s ∈ sel, s.2 = 1 ∨ s.2 = 2 → cellKey s.1.lat s.1.lng ∈ occ) →
      (pass2 m cands sel occ).1.Pairwise selectorSpacing ∧
      (∀ s ∈ (pass2 m cands sel occ).1, s.2 = 1 ∨ s.2 = 2 →
        cellKey s.1.lat s.1.lng ∈ (pass2 m cands sel occ).2) := by
  intro cands
  induction cands with
  | nil => intro sel occ hp hc; exact ⟨hp, hc⟩
  | cons c rest ih =>
    intro sel occ hp hc
    simp only [pass2]
    by_cases h1 : m ≤ sel.length
    · rw [if_pos h1]; exact ⟨hp, hc⟩
    · rw [if_neg h1]
      by_cases h2 : sel.any (fun s => s.1.placeID == c.placeID) = true
      · rw [if_pos h2]; exact ih _ _ hp hc
      · rw [if_neg h2]
        by_cases h3 : occ.contains (cellKey c.lat c.lng) = true
        · rw [if_pos h3]; exact ih _ _ hp hc
        · rw [if_neg h3]
          have hnotmem : cellKey c.lat c.lng ∉ occ := by
            intro hmem
            apply h3
            simpa using hmem
          apply ih
          · rw [List.pairwise_append]
            refine ⟨hp, List.pairwise_singleton _ _, ?_⟩
            intro a ha b hb
            rw [List.mem_singleton] at hb
            subst hb
            refine ⟨fun h3b => by simp at h3b, ?_⟩
            intro _ htag heq
            exact hnotmem (heq ▸ hc a ha htag)
          · intro s hs htag
            rcases List.mem_append.mp hs with hs1 | hs2
            · exact List.mem_cons_of_mem _ (hc s hs1 htag)
            · rw [List.mem_singleton] at hs2
              subst hs2
              exact List.mem_cons_self _ _

theorem pass3_spacing (m : ℕ) :
    ∀ (cands : List GooglePlaceResult) (sel : List (GooglePlaceResult × ℕ)),
      sel.Pairwise selectorSpacing →
      (pass3 m cands sel).Pairwise selectorSpacing := by
  intro cands
  induction cands with
  | nil => intro sel hp; exact hp
  | cons c rest ih =>
    intro sel hp
    simp only [pass3]
    by_cases h1 : m ≤ sel.length
    · rw [if_pos h1]; exact hp
    · rw [if_neg h1]
      by_cases h2 : sel.any (fun s => s.1.placeID == c.placeID) = true
      · rw [if_pos h2]; exact ih _ hp
      · rw [if_neg h2]
        by_cases h3 : tooClose sel c
        · rw [if_pos h3]; exact ih _ hp
        · rw [if_neg h3]
          apply ih
          rw [List.pairwise_append]
          refine ⟨hp, List.pairwise_singleton _ _, ?_⟩
          intro a ha b hb
          rw [List.mem_singleton] at hb
          subst hb
          refine ⟨?_, fun h2b => by simp at h2b⟩
          intro _ hlt
          exact h3 ⟨a, ha, hlt⟩

/-- C2 amended: the 200 m guarantee holds exactly for Pass-3
acceptances, regardless of category: every selected candidate accepted
in Pass 3 is at least 0.2 km (by the Pass-3 distance check itself) from
every candidate selected before it; Pass-2 acceptances carry no 200 m
guarantee — they are only guaranteed to occupy a grid cell different
from every earlier Pass-1/Pass-2 acceptance. -/
theorem C2_selector_spacing_amended (candidates : List GooglePlaceResult)
    (existing : List PlaceForClustering) (maxPlaces : ℕ) :
    (selectBestDistributedPlacesTagged candidates existing
      maxPlaces).Pairwise selectorSpacing := by
  by_cases hc : candidates.isEmpty = true
  · simp [selectBestDistributedPlacesTagged, hc]
  · simp only [selectBestDistributedPlacesTagged, if_neg hc]
    obtain ⟨hp1, hc1⟩ := pass1_spacing maxPlaces candidates []
      (existing.map (fun p => cellKey p.latitude p.longitude))
      List.Pairwise.nil (by intro s hs _; simp at hs)
    obtain ⟨hp2, _⟩ := pass2_spacing maxPlaces candidates _ _ hp1 hc1
    exact pass3_spacing maxPlaces candidates _ hp2

theorem C2_selector_spacing_amended_witness :
    (selectBestDistributedPlacesTagged [cafeNearA] [] 5).Pairwise
      selectorSpacing :=
  C2_selector_spacing_amended [cafeNearA] [] 5

theorem calculateDistance_same_lng (lat1 lat2 lng : ℝ)
    (h0 : 0 ≤ (lat2 - lat1) * 3.14159265359 / 180 / 2)
    (h1 : (lat2 - lat1) * 3.14159265359 / 180 / 2 < Real.pi / 2) :
    CalculateDistance lat1 lng lat2 lng =
      6371 * ((lat2 - lat1) * 3.14159265359 / 180) := by
  have hpi := Real.pi_pos
  set θ : ℝ := (lat2 - lat1) * 3.14159265359 / 180 / 2 with hθ
  have e2 : (lat2 * (3.14159265359:ℝ) / 180 - lat1 * 3.14159265359 / 180) / 2
      = θ := by
    rw [hθ]; ring
  have e1 : (lng * (3.14159265359:ℝ) / 180 - lng * 3.14159265359 / 180) / 2
      = 0 := by
    ring
  have hsin : 0 ≤ Real.sin θ :=
    Real.sin_nonneg_of_nonneg_of_le_pi h0 (by linarith)
  have hcos : 0 < Real.cos θ :=
    Real.cos_pos_of_mem_Ioo ⟨by linarith, h1⟩
  have hs2 : 1 - Real.sin θ * Real.sin θ = Real.cos θ * Real.cos θ := by
    have h := Real.sin_sq_add_cos_sq θ
    nlinarith [h]
  simp only [CalculateDistance, e1, e2, Real.sin_zero, mul_zero, zero_mul,
    add_zero]
  rw [hs2, Real.sqrt_mul_self hsin, Real.sqrt_mul_self hcos.le]
  rw [atan2, if_pos hcos]
  rw [← Real.tan_eq_sin_div_cos, Real.arctan_tan (by linarith) h1]
  rw [hθ]; ring

/-- C2 counterexample: two candidates with the same category `"cafe"`,
both accepted in Pass 2 (they straddle a grid line, landing in distinct
cells), are only about 2.2 m apart — far closer than 200 m — so the
claimed minimum spacing between Pass-2/Pass-3 selections of matching
category does not hold. -/
theorem C2_counterexample :
    selectBestDistributedPlacesTagged [cafeNearA, cafeNearB] [] 20 =
      [(cafeNearA, 2), (cafeNearB, 2)] ∧
    cafeNearA.types = ["cafe"] ∧ cafeNearB.types = ["cafe"] ∧
    CalculateDistance (cafeNearA.lat : ℝ) (cafeNearA.lng : ℝ)
      (cafeNearB.lat : ℝ) (cafeNearB.lng : ℝ) < 0.2 := by
  have hA : calculatePlaceImportanceScore cafeNearA = 10 := by
    have h1 : ratingContribution cafeNearA.rating = 0 := rfl
    have h2 : reviewContribution cafeNearA.userRatingsTotal = 0 := rfl
    have h3 : categoryContribution cafeNearA.types = 10 := by decide
    simp only [calculatePlaceImportanceScore, h1, h2, h3]
    norm_num
  have hB : calculatePlaceImportanceScore cafeNearB = 10 := by
    have h1 : ratingContribution cafeNearB.rating = 0 := rfl
    have h2 : reviewContribution cafeNearB.userRatingsTotal = 0 := rfl
    have h3 : categoryContribution cafeNearB.types = 10 := by decide
    simp only [calculatePlaceImportanceScore, h1, h2, h3]
    norm_num
  have hA80 : ¬ ((80:ℚ) ≤ calculatePlaceImportanceScore cafeNearA) := by
    rw [hA]; norm_num
  have hB80 : ¬ ((80:ℚ) ≤ calculatePlaceImportanceScore cafeNearB) := by
    rw [hB]; norm_num
  have hcA : cellKey cafeNearA.lat cafeNearA.lng = (0, 0) := by
    show cellKey (999/100000) 0 = (0, 0)
    simp only [cellKey, gridSize, Prod.mk.injEq]
    refine ⟨?_, ?_⟩ <;> (rw [Int.floor_eq_iff] <;> norm_num)
  have hcB : cellKey cafeNearB.lat cafeNearB.lng = (1, 0) := by
    show cellKey (1001/100000) 0 = (1, 0)
    simp only [cellKey, gridSize, Prod.mk.injEq]
    refine ⟨?_, ?_⟩ <;> (rw [Int.floor_eq_iff] <;> norm_num)
  have hpidBA : (cafeNearA.placeID == cafeNearB.placeID) = false := by decide
  have hocc : (([(((0:Int), (0:Int)))]).contains ((1:Int), (0:Int))) = false :=
    by decide
  have hrun : selectBestDistributedPlacesTagged [cafeNearA, cafeNearB] [] 20 =
      [(cafeNearA, 2), (cafeNearB, 2)] := by
    simp [selectBestDistributedPlacesTagged, pass1, pass2, pass3, hA80, hB80,
      hcA, hcB, hpidBA, hocc]
  have hlA : ((cafeNearA.lat : ℚ) : ℝ) = 999/100000 := by
    rw [show cafeNearA.lat = (999/100000 : ℚ) from rfl]
    push_cast
    ring
  have hlB : ((cafeNearB.lat : ℚ) : ℝ) = 1001/100000 := by
    rw [show cafeNearB.lat = (1001/100000 : ℚ) from rfl]
    push_cast
    ring
  have hlngA : ((cafeNearA.lng : ℚ) : ℝ) = 0 := by
    rw [show cafeNearA.lng = (0 : ℚ) from rfl]
    push_cast
    ring
  have hlngB : ((cafeNearB.lng : ℚ) : ℝ) = 0 := by
    rw [show cafeNearB.lng = (0 : ℚ) from rfl]
    push_cast
    ring
  refine ⟨hrun, rfl, rfl, ?_⟩
  rw [hlA, hlB, hlngA, hlngB]
  have h0 : (0:ℝ) ≤ ((1001:ℝ)/100000 - 999/100000) * 3.14159265359 / 180 / 2 :=
    by norm_num
  have h1 : ((1001:ℝ)/100000 - 999/100000) * 3.14159265359 / 180 / 2 <
      Real.pi / 2 := by
    have h3 := Real.pi_gt_three
    have hL : ((1001:ℝ)/100000 - 999/100000) * 3.14159265359 / 180 / 2 <
        3/2 := by norm_num
    linarith
  rw [calculateDistance_same_lng _ _ _ h0 h1]
  norm_num

/-- C10 counterexample: Pass 1 performs no already-selected check, so a
candidate list containing the same high-importance result twice (as a
provider page may) is accepted twice, and its external identifier
appears twice in the output — refuting "each of its three passes skips
candidates already selected". -/
theorem C10_counterexample :
    selectBestDistributedPlaces [grandCastle, grandCastle] [] 20 =
      [grandCastle, grandCastle] ∧
    ¬ ((selectBestDistributedPlaces [grandCastle, grandCastle] [] 20).map
        GooglePlaceResult.placeID).Nodup := by
  have hgc : (80:ℚ) ≤ calculatePlaceImportanceScore grandCastle := by
    have h1 : ratingContribution grandCastle.rating = 15 := by
      show ratingContribution (some (9/2)) = 15
      simp only [ratingContribution]
      norm_num
    have h2 : reviewContribution grandCastle.userRatingsTotal = 50 := by decide
    have h3 : categoryContribution grandCastle.types = 30 := by decide
    simp only [calculatePlaceImportanceScore, h1, h2, h3]
    norm_num
  have hrun : selectBestDistributedPlacesTagged [grandCastle, grandCastle] []
      20 = [(grandCastle, 1), (grandCastle, 1)] := by
    simp [selectBestDistributedPlacesTagged, pass1, pass2, pass3, hgc]
  constructor
  · simp [selectBestDistributedPlaces, hrun]
  · simp [selectBestDistributedPlaces, hrun, List.nodup_cons]

/-- C10 amended: the selector returns at most `maxPlaces` candidates
(each pass stops adding once the bound is reached), and Pass 2 and
Pass 3 skip already-selected candidates by external identifier — but
Pass 1 does not, so an identifier can appear twice only when the input
repeats it; when the input identifiers are distinct the output
identifiers are distinct. -/
theorem C10_selector_amended (candidates : List GooglePlaceResult)
    (existing : List PlaceForClustering) (maxPlaces : ℕ) :
    (selectBestDistributedPlaces candidates existing maxPlaces).length ≤
      maxPlaces ∧
    ((candidates.map GooglePlaceResult.placeID).Nodup →
      ((selectBestDistributedPlaces candidates existing maxPlaces).map
        GooglePlaceResult.placeID).Nodup) := by
  by_cases hc : candidates.isEmpty = true
  · simp [selectBestDistributedPlaces, selectBestDistributedPlacesTagged, hc]
  · constructor
    · simp only [selectBestDistributedPlaces,
        selectBestDistributedPlacesTagged, if_neg hc, List.length_map]
      exact pass3_length_le _ _ _
        (pass2_length_le _ _ _ _ (pass1_length_le _ _ _ _ (by simp)))
    · intro hnd
      simp only [selectBestDistributedPlaces,
        selectBestDistributedPlacesTagged, if_neg hc, List.map_map]
      have h1 := pass1_nodup maxPlaces candidates []
        (existing.map (fun p => cellKey p.latitude p.longitude))
        (by simpa using hnd)
      have h2 := pass2_nodup maxPlaces candidates
        (pass1 maxPlaces candidates []
          (existing.map (fun p => cellKey p.latitude p.longitude))).1
        (pass1 maxPlaces candidates []
          (existing.map (fun p => cellKey p.latitude p.longitude))).2 h1
      have h3 := pass3_nodup maxPlaces candidates
        (pass2 maxPlaces candidates
          (pass1 maxPlaces candidates []
            (existing.map (fun p => cellKey p.latitude p.longitude))).1
          (pass1 maxPlaces candidates []
            (existing.map (fun p => cellKey p.latitude p.longitude))).2).1 h2
      simpa [Function.comp] using h3

theorem C10_selector_amended_witness :
    ([cafeNearA].map GooglePlaceResult.placeID).Nodup ∧
    ((selectBestDistributedPlaces [cafeNearA] [] 5).map
      GooglePlaceResult.placeID).Nodup :=
  ⟨by decide, (C10_selector_amended [cafeNearA] [] 5).2 (by decide)⟩

end SnapPoint
